import Mathlib

/-!
Verification of the HPE-45000 tape-drive-controller transfer engine.

Shallow embedding of the Python sources under `tape_drive_controller/tape/`
(`backup.py`, `capacity.py`, `ltfs.py`).  External processes (mt, tar, du,
sg_logs, sg_read_attr, ltfs, fusermount, umount, rsync) are modelled as
oracle outcomes supplied through environment structures; the pure parsing
and control-flow logic is translated line by line from the source.

Modelling notes used throughout:
* Python `int` is unbounded, so machine integers are `Int`/`Nat` directly.
* Python string helpers (`split`, `strip`, `int()`, `f"{n:,}"`) are
  reimplemented for ASCII text; the repository only ever feeds ASCII
  tool output through them.
* `re` patterns are translated to deterministic scanners; for each pattern
  used here the greedy deterministic scan coincides with the regex semantics
  (argued in comments next to each scanner).
-/

/-- Python `str.isspace` characters relevant to `\s` / `split(None)` for
ASCII text: space, tab, newline, carriage return, vertical tab, form feed. -/
def pyIsSpace (c : Char) : Bool :=
  c == ' ' || c == '\t' || c == '\n' || c == '\r' || c.toNat == 11 || c.toNat == 12

/-- Value of a run of decimal digit characters (most significant first). -/
def digitsToNat (l : List Char) : Nat :=
  l.foldl (fun acc c => acc * 10 + (c.toNat - 48)) 0

/-- Core of Python `int(str)` on a sign-free token: digit characters with
single underscores allowed between digits (`int("1_0") == 10`), rejecting
anything else with `ValueError` (modelled as `none`).  The first character
is checked by the caller to be a digit. -/
def pyDigitsCore : List Char → Nat → Option Nat
  | [], acc => some acc
  | c :: cs, acc =>
    if c.isDigit then pyDigitsCore cs (acc * 10 + (c.toNat - 48))
    else if c = '_' then
      match cs with
      | c2 :: _ => if c2.isDigit then pyDigitsCore cs acc else none
      | [] => none
    else none

/-- Python `int(token)` for a whitespace-free token: optional sign, then
digits (with legal underscores).  Returns `none` where Python raises
`ValueError`. -/
def pyIntParse (s : String) : Option Int :=
  match s.data with
  | [] => none
  | '+' :: cs =>
    match cs with
    | c :: _ => if c.isDigit then (pyDigitsCore cs 0).map Int.ofNat else none
    | [] => none
  | '-' :: cs =>
    match cs with
    | c :: _ => if c.isDigit then (pyDigitsCore cs 0).map (fun n => -(n : Int)) else none
    | [] => none
  | c :: cs =>
    if c.isDigit then (pyDigitsCore (c :: cs) 0).map Int.ofNat else none

/-- First token of Python `line.split(None, 1)`: `none` when the split
yields `[]` (whitespace-only line), otherwise `parts[0]`. -/
def pyFirstToken (s : String) : Option String :=
  let l := s.data.dropWhile pyIsSpace
  if l.isEmpty then none
  else some ⟨l.takeWhile (fun c => !pyIsSpace c)⟩

/-- Python `str.strip()` on a char list. -/
def pyStripList (l : List Char) : List Char :=
  ((l.dropWhile pyIsSpace).reverse.dropWhile pyIsSpace).reverse

/-- Python `str.strip()`. -/
def pyStrip (s : String) : String := ⟨pyStripList s.data⟩

/-- Python `str.rstrip()`. -/
def pyRstrip (s : String) : String := ⟨(s.data.reverse.dropWhile pyIsSpace).reverse⟩

/-- Python `stdout.strip().splitlines()` modelled for newline-separated tool
output (`du`, `tar` and the sg tools emit `\n`-separated lines). -/
def pyLines (out : String) : List String :=
  let st := pyStripList out.data
  if st.isEmpty then [] else (st.splitOn '\n').map (fun l => ⟨l⟩)

/-- Digit grouping used by Python `f"{n:,}"`, on the reversed digit list:
a comma after every three digits counted from the right. -/
def commaGroupRev : List Char → List Char
  | a :: b :: c :: d :: rest => a :: b :: c :: ',' :: commaGroupRev (d :: rest)
  | l => l

/-- Python `f"{n:,}"`: sign, then decimal digits grouped in threes. -/
def pyCommaFmt (n : Int) : String :=
  (if n < 0 then "-" else "") ++ ⟨(commaGroupRev (toString n.natAbs).data.reverse).reverse⟩

/-- Python `f"{n / (1024**3):.1f}"`: the byte count scaled to GiB and
rendered with one decimal.  Rounding is done on the exact rational; CPython
formats the nearest double with round-half-even, which differs only when
`n*10/2^30` lands exactly on a rounding tie of the double value — no claim
here evaluates such an `n`. -/
def fmtGB1 (n : Int) : String :=
  let tenths : Int := round ((n * 10 : ℚ) / (2 ^ 30 : ℚ))
  let q := tenths.natAbs
  (if tenths < 0 then "-" else "") ++ toString (q / 10) ++ "." ++ toString (q % 10)

/-! ## Capacity resolver (`capacity.py`) -/

/-- Source constant `LTO9_MISREPORT_MIN_GB = 50`. -/
def LTO9_MISREPORT_MIN_GB : ℕ := 50

/-- Source constant `LTO9_MISREPORT_MAX_GB = 500`. -/
def LTO9_MISREPORT_MAX_GB : ℕ := 500

/-- Source constant `LTO9_MISREPORT_FACTOR = 161`. -/
def LTO9_MISREPORT_FACTOR : ℕ := 161

/-- `_apply_lto9_misreport_correction`: `gb = bytes_val / (1024**3)` and the
band test `50 <= gb <= 500`.  The Python float quotient equals the exact
rational one for every band decision: values near the band edges are below
`2^53` so `bytes_val` converts exactly and division by `2^30` only shifts
the exponent; values above `2^53` round by far too little to re-enter the
band.  The quotient is therefore modelled as an exact rational. -/
def applyLto9MisreportCorrection (bytesVal : ℕ) : ℕ :=
  let gb : ℚ := (bytesVal : ℚ) / (1024 ^ 3 : ℚ)
  if (LTO9_MISREPORT_MIN_GB : ℚ) ≤ gb ∧ gb ≤ (LTO9_MISREPORT_MAX_GB : ℚ) then
    bytesVal * LTO9_MISREPORT_FACTOR
  else bytesVal

/-- Oracle view of the two sg query helpers and of `_nst_to_sg`:
`sgLogs d` / `sgReadAttr d` return the parsed capacity in bytes for device
`d` (already converted from MiB inside `_query_sg_logs` /
`_query_sg_read_attr`), or `none` when the tool is missing, times out, exits
non-zero or its output does not match the capacity regex. -/
structure CapacityEnv where
  sgDevice : Option String
  sgLogs : String → Option Nat
  sgReadAttr : String → Option Nat

/-- One `for dev in devices_to_try:` loop body: return on the first device
whose query succeeds. -/
def tryEachDevice (f : String → Option Nat) : List String → Option Nat
  | [] => none
  | d :: ds =>
    match f d with
    | some r => some r
    | none => tryEachDevice f ds

/-- `query_remaining_capacity_bytes`: try `sg_logs` over
`[device] (+ sg alias)`, then `sg_read_attr`, applying the misreport
correction to whichever raw value is found first. -/
def queryRemainingCapacityBytes (env : CapacityEnv) (device : String) : Option Nat :=
  let devicesToTry := device :: (match env.sgDevice with | some d => [d] | none => [])
  match tryEachDevice env.sgLogs devicesToTry with
  | some r => some (applyLto9MisreportCorrection r)
  | none =>
    match tryEachDevice env.sgReadAttr devicesToTry with
    | some r => some (applyLto9MisreportCorrection r)
    | none => none

/-! ## Source sizing (`_compute_total_size`, identical in `backup.py` and
`ltfs.py`) -/

/-- Outcome of the `du -sb` subprocess: the tool may be missing
(`FileNotFoundError`), time out (`subprocess.TimeoutExpired`), or run to
completion with an exit code and stdout text. -/
inductive DuOutcome
  | toolMissing
  | timedOut
  | ran (returncode : Int) (stdout : String)
deriving Repr

/-- The `for line in ... splitlines()` summation loop of
`_compute_total_size`.  A whitespace-only line has `parts == []` and is
skipped; a first token that `int()` rejects raises `ValueError`, which the
enclosing `except` turns into a result of 0 for the whole call — modelled
as `none` here. -/
def duSumLines : List String → Int → Option Int
  | [], acc => some acc
  | l :: ls, acc =>
    match pyFirstToken l with
    | none => duSumLines ls acc
    | some tok =>
      match pyIntParse tok with
      | none => none
      | some k => duSumLines ls (acc + k)

/-- `_compute_total_size(paths)`: 0 for an empty path list (du not run),
0 on tool failure / non-zero exit / `ValueError`, else the sum of the
leading integers of the output lines. -/
def computeTotalSize (paths : List String) (du : DuOutcome) : Int :=
  if paths.isEmpty then 0
  else
    match du with
    | .toolMissing => 0
    | .timedOut => 0
    | .ran rc out =>
      if rc ≠ 0 then 0
      else
        match duSumLines (pyLines out) 0 with
        | some t => t
        | none => 0

/-! ## Checkpoint telemetry (`run_backup` / `run_restore` `log` closures) -/

/-- Source constant `CHECKPOINT_EVERY = 500`. -/
def CHECKPOINT_EVERY : ℕ := 500

/-- `line.split(pat, 1)[1]` combined with the `"CHECKPOINT " in line` test:
the suffix after the first occurrence of `pat`, or `none` when `pat` does
not occur. -/
def afterFirst (pat : List Char) : List Char → Option (List Char)
  | [] => if pat.isEmpty then some [] else none
  | c :: cs =>
    if pat.isPrefixOf (c :: cs) then some ((c :: cs).drop pat.length)
    else afterFirst pat cs

/-- One attempt of the regex `<label>\s*(\d+)` at a fixed position:
the label verbatim, then optional whitespace, then at least one digit. -/
def matchLabelAt (label : List Char) (s : List Char) : Option Nat :=
  if label.isPrefixOf s then
    let rest := (s.drop label.length).dropWhile pyIsSpace
    let ds := rest.takeWhile Char.isDigit
    if ds.isEmpty then none else some (digitsToNat ds)
  else none

/-- `re.search` for `<label>\s*(\d+)` (the `_CHECKPOINT_W_BYTES` /
`_CHECKPOINT_R_BYTES` patterns): leftmost position where the pattern
matches.  `\d+` is greedy with nothing after it, so the captured group is
the maximal digit run — exactly `takeWhile isDigit`. -/
def searchLabeled (label : List Char) : List Char → Option Nat
  | [] => matchLabelAt label []
  | c :: cs =>
    match matchLabelAt label (c :: cs) with
    | some n => some n
    | none => searchLabeled label cs

/-- The checkpoint branch of the `log` closure in `run_backup` (label
`"W:"`) and `run_restore` (label `"R:"`): when the line contains
`"CHECKPOINT "`, re-derive `file_count = n * CHECKPOINT_EVERY` from the
first token after the marker (left unchanged on `IndexError`/`ValueError`),
and take the byte counter from the labelled field when the regex matches
(left unchanged otherwise).  Lines without the marker change nothing. -/
def checkpointUpdate (byteLabel : String) (fileCount : Int) (bytesCtr : Nat)
    (line : String) : Int × Nat :=
  match afterFirst "CHECKPOINT ".data line.data with
  | none => (fileCount, bytesCtr)
  | some rest =>
    let fc :=
      match pyFirstToken ⟨rest⟩ with
      | none => fileCount
      | some tok =>
        match pyIntParse tok with
        | none => fileCount
        | some n => n * CHECKPOINT_EVERY
    let b :=
      match searchLabeled byteLabel.data line.data with
      | some w => w
      | none => bytesCtr
    (fc, b)

/-! ## Listing-line parser (`_TAR_LIST_LINE` in `backup.py`) -/

/-- The dataclass `TapeEntry(path, size, is_dir)`. -/
structure TapeEntry where
  path : String
  size : Nat
  is_dir : Bool
deriving DecidableEq, Repr

/-- Consume `\d{4}-\d{2}-\d{2}` and return the remainder. -/
def checkDate : List Char → Option (List Char)
  | a :: b :: c :: d :: '-' :: e :: f :: '-' :: g :: h :: rest =>
    if a.isDigit && b.isDigit && c.isDigit && d.isDigit &&
       e.isDigit && f.isDigit && g.isDigit && h.isDigit then some rest else none
  | _ => none

/-- Consume `\d{2}:\d{2}` and return the remainder. -/
def checkTime : List Char → Option (List Char)
  | a :: b :: ':' :: c :: d :: rest =>
    if a.isDigit && b.isDigit && c.isDigit && d.isDigit then some rest else none
  | _ => none

/-- The regex `^(.{10})\s+\S+/\S+\s+(\d+)\s+\d{4}-\d{2}-\d{2}\s+\d{2}:\d{2}\s+(.*)$`
as a deterministic scanner.  Because every `\S+` run must end at a
whitespace boundary and every numeric/date/time piece is followed by a
mandatory `\s+`, the regex admits no alternative decompositions: the
owner/group field is the whole first word after the permissions (which must
contain an interior `/`), the size is a whole word of digits, the date and
time are words of their exact shapes, and the path is everything after the
following whitespace run.  `.` does not match a newline. -/
def matchTarListLine (l : List Char) : Option TapeEntry :=
  let perms := l.take 10
  if perms.length ≠ 10 || perms.contains '\n' then none
  else
  let r0 := l.drop 10
  let r1 := r0.dropWhile pyIsSpace
  if r1.length = r0.length then none
  else
  let w1 := r1.takeWhile (fun c => !pyIsSpace c)
  if w1.length < 3 || !((w1.drop 1).dropLast.contains '/') then none
  else
  let r2 := r1.drop w1.length
  let r3 := r2.dropWhile pyIsSpace
  if r3.length = r2.length then none
  else
  let ds := r3.takeWhile Char.isDigit
  if ds.isEmpty then none
  else
  let r4 := r3.drop ds.length
  let r5 := r4.dropWhile pyIsSpace
  if r5.length = r4.length then none
  else
  match checkDate r5 with
  | none => none
  | some r6 =>
    let r7 := r6.dropWhile pyIsSpace
    if r7.length = r6.length then none
    else
    match checkTime r7 with
    | none => none
    | some r8 =>
      let r9 := r8.dropWhile pyIsSpace
      if r9.length = r8.length then none
      else if r9.contains '\n' then none
      else
        some { path := ⟨r9⟩, size := digitsToNat ds,
               is_dir := match perms with | 'd' :: _ => true | _ => false }

/-! ## Percentage/size parser (`_parse_rsync_progress2` in `ltfs.py`) -/

/-- The regex `^\s*([\d.,]+\s*[KMG]?)\s+(\d+)%` as a deterministic scanner,
returning `(group 1, group 2)`.  With the `^` anchor, `re.search` only
tries position 0.  Greediness is forced: `[\d.,]+` cannot be shortened
(a shorter run leaves a `[\d.,]` character where `\s` or `[KMG]` must
match), the suffix letter is taken iff present, and `(\d+)%` requires the
maximal digit run to be followed by `%` (a shorter run ends on a digit).
When the suffix is absent, the regex splits the whitespace run between the
in-group `\s*` and the mandatory `\s+`; the group-1 text then omits one
space, which is immaterial because the caller strips and deletes spaces —
modelled by returning the whole run inside group 1. -/
def rsyncProgressMatch (l : List Char) : Option (List Char × List Char) :=
  let l1 := l.dropWhile pyIsSpace
  let num := l1.takeWhile (fun c => c.isDigit || c == '.' || c == ',')
  if num.isEmpty then none
  else
  let r1 := l1.drop num.length
  let ws1 := r1.takeWhile pyIsSpace
  let r2 := r1.drop ws1.length
  let sfxTaken : Bool :=
    match r2 with
    | c :: _ => c == 'K' || c == 'M' || c == 'G'
    | [] => false
  let sfx := if sfxTaken then r2.take 1 else []
  let r3 := if sfxTaken then r2.drop 1 else r2
  let ws2 := r3.takeWhile pyIsSpace
  let r4 := r3.drop ws2.length
  if (if sfxTaken then ws2.isEmpty else ws1.isEmpty) then none
  else
  let pct := r4.takeWhile Char.isDigit
  if pct.isEmpty then none
  else
  match r4.drop pct.length with
  | '%' :: _ => some (num ++ ws1 ++ sfx, pct)
  | _ => none

/-- Python `float()` restricted to the character set that can reach it in
`_parse_rsync_progress2` (digits, `.`, and stray whitespace that survived
`replace(" ","")`): digits with at most one dot and at least one digit;
anything else raises `ValueError` (`none`). -/
def parseDecimal (l : List Char) : Option ℚ :=
  let intPart := l.takeWhile Char.isDigit
  let rest := l.drop intPart.length
  match rest with
  | [] => if intPart.isEmpty then none else some ((digitsToNat intPart : ℕ) : ℚ)
  | '.' :: frac =>
    if frac.all Char.isDigit && !(intPart.isEmpty && frac.isEmpty) then
      some (((digitsToNat intPart : ℕ) : ℚ) +
        ((digitsToNat frac : ℕ) : ℚ) / ((10 : ℚ) ^ frac.length))
    else none
  | _ => none

/-- `_parse_rsync_progress2(line)`: strip and drop `\r`, match the progress
regex, parse the percentage, normalise the size token
(`upper`, drop spaces and commas), pick the binary multiplier from a
trailing `K`/`M`/`G`, and truncate `float(size) * mult` to an integer.
`int(float * 2^k)` is modelled as the exact rational floor (the operand is
non-negative); the concrete input evaluated by the claims yields the same
integer under IEEE double arithmetic, since
`float("105.45") * 2^20 = 110572339.20000000298…` and truncation is
insensitive to the `3·10^-9` representation error. -/
def parseRsyncProgress2 (line : String) : Option Int × Option Int :=
  let l : List Char := (pyStripList line.data).filter (fun c => c ≠ '\r')
  match rsyncProgressMatch l with
  | none => (none, none)
  | some (g1, g2) =>
    let pct : Int := ((digitsToNat g2 : ℕ) : Int)
    let s0 := ((pyStripList g1).map Char.toUpper).filter (fun c => c ≠ ' ' && c ≠ ',')
    let multAndBase : Nat × List Char :=
      match s0.getLast? with
      | some 'K' => (1024, s0.dropLast)
      | some 'M' => (1024 * 1024, s0.dropLast)
      | some 'G' => (1024 * 1024 * 1024, s0.dropLast)
      | _ => (1, s0)
    match parseDecimal multAndBase.2 with
    | some q => (some (Int.floor (q * (multAndBase.1 : ℚ))), some pct)
    | none => (none, some pct)

/-! ## Listing run (`list_tape_contents`) -/

/-- One value obtained from the line queue in the `list_tape_contents`
read loop: either `queue.Empty` after the 0.5 s `cancel_poll_seconds`
timeout, or an item from the reader thread (`none` is the end-of-stream
sentinel the reader enqueues at EOF). -/
inductive QEvent
  | empty
  | item (line : Option String)
deriving Repr

/-- Oracle environment for one `list_tape_contents` run: the `rewind`
outcome, a possible `FileNotFoundError` from `Popen` (carrying the
exception text), the scripted queue behaviour, the tar exit code, and the
caller's `cancel_check` (sampled once per `queue.Empty`, indexed by the
number of earlier samples). -/
structure ListEnv where
  skipRewind : Bool
  rewind : Except String Unit
  spawnErr : Option String
  events : List QEvent
  exitCode : Int
  cancel : Option (Nat → Bool)

/-- Message of the cancellation error raised in `list_tape_contents`. -/
def listCancelMsg : String := "List tape contents cancelled by user"

/-- The `while True:` read loop of `list_tape_contents`.  On `queue.Empty`
the cancel predicate (when supplied) is consulted and a true answer raises
the cancellation error; a `none` queue item breaks the loop returning the
accumulated entries; other lines are rstripped and parsed, non-matching
lines being ignored.  `none` overall means the scripted events ran out
while the loop would still be blocked. -/
def listLoop (cancel : Option (Nat → Bool)) :
    List QEvent → Nat → List TapeEntry → Option (Except String (List TapeEntry))
  | [], _, _ => none
  | QEvent.empty :: evs, cIdx, acc =>
    match cancel with
    | some cf =>
      if cf cIdx then some (Except.error listCancelMsg)
      else listLoop cancel evs (cIdx + 1) acc
    | none => listLoop cancel evs cIdx acc
  | QEvent.item none :: _, _, acc => some (Except.ok acc)
  | QEvent.item (some l) :: evs, cIdx, acc =>
    match matchTarListLine (pyRstrip l).data with
    | some e => listLoop cancel evs cIdx (acc ++ [e])
    | none => listLoop cancel evs cIdx acc

/-- `list_tape_contents` after the optional rewind: spawn tar (a missing
tar raises the `Required command not found` error), run the read loop, then
`proc.wait()` and turn a non-zero exit code into an error. -/
def listAfterRewind (env : ListEnv) : Option (Except String (List TapeEntry)) :=
  match env.spawnErr with
  | some e => some (.error ("Required command not found (tar): " ++ e))
  | none =>
    match listLoop env.cancel env.events 0 [] with
    | none => none
    | some (.error m) => some (.error m)
    | some (.ok entries) =>
      if env.exitCode ≠ 0 then
        some (.error ("tar list exited with code " ++ toString env.exitCode))
      else some (.ok entries)

/-- `list_tape_contents(device, …)`: rewind unless `skip_rewind` (a rewind
failure propagates as the error it raised), then the supervised tar -tvf
read.  The result is the single value the caller observes: either the full
entry list or one raised `TapeBackupError` message — a raised error carries
no entries. -/
def listTapeContents (env : ListEnv) : Option (Except String (List TapeEntry)) :=
  if !env.skipRewind then
    match env.rewind with
    | .error e => some (.error e)
    | .ok _ => listAfterRewind env
  else listAfterRewind env

/-! ## Backup run (`run_backup`) -/

/-- External commands `run_backup` can spawn, in order of appearance:
`du -sb` (inside `_compute_total_size`), `mt rewind`, and the tar archive
write. -/
inductive BCmd
  | duCmd
  | mtRewind
  | tarSpawn
deriving DecidableEq, Repr

/-- Oracle environment for one `run_backup` run.  `lines` is the full
stdout of the tar process up to EOF — `for line in proc.stdout:` blocks
until a line or EOF arrives, so the loop consumes exactly these lines and
`cancel` is sampled once per delivered line (there is no timeout tick in
this loop). -/
structure BackupEnv where
  paths : List String
  du : DuOutcome
  maxTapeBytes : Option Int
  skipRewind : Bool
  rewind : Except String Unit
  spawnErr : Option String
  lines : List String
  exitCode : Int
  cancel : Option (Nat → Bool)

/-- Message of the cancellation error raised in `run_backup`. -/
def backupCancelMsg : String := "Backup cancelled by user"

/-- The capacity-precheck error message of `run_backup`, built exactly as
the source f-string does (thousands separators and a one-decimal GiB
rendering of both figures). -/
def capacityExceededMsg (t m : Int) : String :=
  "Backup size (" ++ pyCommaFmt t ++ " bytes, ~" ++ fmtGB1 t ++
  " GB) exceeds tape capacity limit (" ++ pyCommaFmt m ++ " bytes, ~" ++ fmtGB1 m ++
  " GB). Increase the tape capacity setting or remove directories."

/-- The `for line in proc.stdout:` loop of `run_backup`: the cancel
predicate is consulted once per delivered line, before the line is logged;
a true answer terminates the process and raises the cancellation error.
The `log` closure only feeds callbacks (its counter updates are
`checkpointUpdate` with label `"W:"`) and never changes the outcome, so it
is not threaded here. -/
def backupLoop (cancel : Option (Nat → Bool)) : List String → Nat → Except String Unit
  | [], _ => .ok ()
  | _ :: ls, i =>
    match cancel with
    | some cf => if cf i then .error backupCancelMsg else backupLoop cancel ls (i + 1)
    | none => backupLoop cancel ls (i + 1)

/-- `run_backup` from the tar spawn on: a `FileNotFoundError` from `Popen`
becomes the `Required command not found` error; otherwise the read loop
runs and a non-zero exit code becomes an error. -/
def runBackupTail (env : BackupEnv) : List BCmd × Except String Unit :=
  match env.spawnErr with
  | some e => ([BCmd.tarSpawn], .error ("Required command not found (mt/tar): " ++ e))
  | none =>
    ([BCmd.tarSpawn],
      match backupLoop env.cancel env.lines 0 with
      | .error m => .error m
      | .ok _ =>
        if env.exitCode ≠ 0 then .error ("tar exited with code " ++ toString env.exitCode)
        else .ok ())

/-- `run_backup` from the positioning step on: `rewind(device)` unless
`skip_rewind`, a rewind failure propagating as raised. -/
def runBackupAfterPrecheck (env : BackupEnv) : List BCmd × Except String Unit :=
  if !env.skipRewind then
    match env.rewind with
    | .error e => ([BCmd.mtRewind], .error e)
    | .ok _ =>
      let tail := runBackupTail env
      (BCmd.mtRewind :: tail.1, tail.2)
  else runBackupTail env

/-- The combined guard
`max_tape_bytes is not None and max_tape_bytes > 0 and total_bytes is not
None` together with the inner `total_bytes > max_tape_bytes` test of
`run_backup`. -/
def backupPrecheckFails (maxB : Option Int) (totalOpt : Option Int) : Bool :=
  match maxB, totalOpt with
  | some m, some t => decide (0 < m) && decide (m < t)
  | _, _ => false

/-- `run_backup(device, paths, …)`: compute the total source size (0 mapped
to `None`), abort with `CapacityExceeded` when a positive ceiling is
configured and the known total exceeds it, then rewind and stream tar.
Returns the commands spawned and the outcome.  On the abort branch both
guards hold, so `maxTapeBytes.getD 0` is the configured ceiling itself. -/
def runBackup (env : BackupEnv) : List BCmd × Except String Unit :=
  let duTrace : List BCmd := if env.paths.isEmpty then [] else [BCmd.duCmd]
  let total : Int := computeTotalSize env.paths env.du
  let totalOpt : Option Int := if total = 0 then none else some total
  let rest :=
    if backupPrecheckFails env.maxTapeBytes totalOpt then
      (([] : List BCmd), Except.error (capacityExceededMsg total (env.maxTapeBytes.getD 0)))
    else runBackupAfterPrecheck env
  (duTrace ++ rest.1, rest.2)

/-! ## Mount lifecycle (`ltfs.py`)

The OS state visible to the mount manager is a mount table and a directory
set.  `os.rmdir` follows POSIX: removing a directory that is a mount point
fails with `EBUSY` (the callers wrap every `os.rmdir` in
`try/except OSError`), so the model's `rmdir` refuses and leaves the state
unchanged when the path is still mounted.  Unmount subprocesses
(`fusermount -u`, `umount`) are oracles: the call can raise
`FileNotFoundError`, or complete — with or without actually detaching the
mount (the sources never check these tools' exit codes).  Subprocess
timeouts of the unmount tools are not modelled. -/

/-- Mount table plus directory set. -/
structure FS where
  mounts : List String
  dirs : List String
deriving DecidableEq, Repr

/-- `os.path.ismount`. -/
def FS.ismount (fs : FS) (p : String) : Bool := decide (p ∈ fs.mounts)

/-- `os.path.isdir` (and `os.path.exists` for the paths handled here,
which are always directories). -/
def FS.isdir (fs : FS) (p : String) : Bool := decide (p ∈ fs.dirs)

/-- `os.rmdir` with POSIX semantics: refuses (EBUSY) while the path is a
mount point, otherwise removes the directory.  A missing path (ENOENT)
also leaves the state unchanged; every call site catches `OSError`. -/
def FS.rmdir (fs : FS) (p : String) : FS :=
  if p ∈ fs.mounts then fs
  else { fs with dirs := fs.dirs.erase p }

/-- `tempfile.mkdtemp`: create the directory. -/
def FS.mkdir (fs : FS) (p : String) : FS := { fs with dirs := p :: fs.dirs }

/-- The ltfs daemon attaching the filesystem at `p`. -/
def FS.domount (fs : FS) (p : String) : FS := { fs with mounts := p :: fs.mounts }

/-- A successful detach of the mount at `p`. -/
def FS.dounmount (fs : FS) (p : String) : FS := { fs with mounts := fs.mounts.erase p }

/-- Outcome of one unmount subprocess call (`fusermount -u` / `umount`):
the binary may be missing, or the command completes and either detaches
the mount or leaves it attached. -/
inductive RunOutcome
  | notFound
  | ran (unmounts : Bool)
deriving DecidableEq, Repr

/-- State effect of one unmount subprocess call. -/
def applyRun (fs : FS) (p : String) : RunOutcome → FS
  | .notFound => fs
  | .ran eff => if eff then fs.dounmount p else fs

/-- The `for cmd in (fusermount, umount): try: run(cmd); break
except FileNotFoundError/TimeoutExpired: continue` loop of `unmount_ltfs`
(also the `try: fusermount except FileNotFoundError: umount` fallback of
the cleanup paths): run `fusermount -u`, and only when that binary is
missing run `umount`; the loop breaks after the first command that runs,
without checking its exit status. -/
def runUnmountFallback (f u : RunOutcome) (fs : FS) (mp : String) : FS :=
  match f with
  | RunOutcome.notFound => applyRun fs mp u
  | RunOutcome.ran eff => if eff then fs.dounmount mp else fs

/-- Oracle environment for one `unmount_ltfs` call: outcomes of the two
unmount commands, whether an owning ltfs process handle is still alive,
and whether terminating that FUSE daemon detaches the mount. -/
structure UnmountEnv where
  fuser : RunOutcome
  umountCmd : RunOutcome
  procAlive : Bool
  termUnmounts : Bool

/-- `unmount_ltfs(mount_point, ltfs_proc)`: return early when the path is
empty or gone; if mounted, run `fusermount -u` and fall back to `umount`
only when `fusermount` is missing (the loop `break`s after the first
command that runs, without checking its exit status); terminate a
still-alive ltfs process; finally remove the directory only when it exists
and is no longer mounted. -/
def unmountLtfs (env : UnmountEnv) (mountPoint : String) (fs : FS) : FS :=
  if mountPoint.isEmpty || !fs.isdir mountPoint then fs
  else
    let fs1 :=
      if fs.ismount mountPoint then
        runUnmountFallback env.fuser env.umountCmd fs mountPoint
      else fs
    let fs2 :=
      if env.procAlive && env.termUnmounts then fs1.dounmount mountPoint else fs1
    if !mountPoint.isEmpty && fs2.isdir mountPoint && !fs2.ismount mountPoint then
      fs2.rmdir mountPoint
    else fs2

/-- One candidate directory of the leftover sweep together with the
oracle outcomes of the two unmount commands that may be run on it. -/
structure SweepItem where
  path : String
  fuser : RunOutcome
  umountCmd : RunOutcome

/-- One iteration of the `for path in candidates:` loop of
`unmount_leftover_ltfs_mounts`: skip non-directories and non-mounts; then
`for cmd in (fusermount, umount): if not ismount: break; run cmd`; then
count and remove the directory when the mount is gone. -/
def sweepOne (it : SweepItem) (fs : FS) : FS × Nat :=
  if !fs.isdir it.path then (fs, 0)
  else if !fs.ismount it.path then (fs, 0)
  else
    let fs1 := applyRun fs it.path it.fuser
    let fs2 := if fs1.ismount it.path then applyRun fs1 it.path it.umountCmd else fs1
    if !fs2.ismount it.path then (fs2.rmdir it.path, 1) else (fs2, 0)

/-- `unmount_leftover_ltfs_mounts`: sweep the `/tmp/ltfs_tape_*`
candidates (the `os.listdir` result is an oracle input) and return the
number of mounts successfully unmounted. -/
def unmountLeftovers : List SweepItem → FS → FS × Nat
  | [], fs => (fs, 0)
  | it :: its, fs =>
    let r1 := sweepOne it fs
    let r2 := unmountLeftovers its r1.1
    (r2.1, r1.2 + r2.2)

/-- Outcome of the 30 s mount-visibility poll loop shared by
`mount_ltfs_only` and `run_ltfs_rsync`: the ltfs process may exit with the
mount visible (daemonized), exit without a mount (failure, with the
captured stderr tail), the mount may appear while the process runs, or the
deadline may pass without a mount (timeout, with the stderr tail). -/
inductive MountPoll
  | exitedMounted
  | exitedNoMount (stderrTail : String)
  | polledMounted
  | timedOut (stderrTail : String)
deriving DecidableEq, Repr

/-- Error-text suffix for the mount-failure path: the processed stderr
tail (already truncated to its last 30 lines by the source) prefixed as
the source does, or nothing when stderr was empty. -/
def mountFailSuffix (tail : String) : String :=
  if tail.isEmpty then "" else "\nltfs stderr: " ++ tail

/-- The exception-handler cleanup of `mount_ltfs_only` (also the shape of
the `run_ltfs_rsync` `finally` block for the mount directory): when the
directory exists, unmount it if it is still mounted (`fusermount -u`,
falling back to `umount` only on `FileNotFoundError`), then attempt
`os.rmdir` unconditionally under `except OSError: pass`. -/
def mountDirCleanup (mp : String) (fuser umountO : RunOutcome) (fs : FS) : FS :=
  if fs.isdir mp then
    let fs1 :=
      if fs.ismount mp then runUnmountFallback fuser umountO fs mp
      else fs
    fs1.rmdir mp
  else fs

/-- Oracle environment for one `mount_ltfs_only` call. -/
structure MountEnv where
  ltfsPresent : Bool
  sgDevice : Option String
  sweep : List SweepItem
  mountPoint : String
  poll : MountPoll
  cleanupFuser : RunOutcome
  cleanupUmount : RunOutcome

/-- `mount_ltfs_only(device)`: require the ltfs binary and a resolvable sg
device, sweep leftovers, create the temp mount directory, spawn ltfs and
poll for the mount.  On success the mount is visible and the mount point is
returned; on failure (early exit or timeout) the exception handler unmounts
if needed and removes the directory before re-raising.  The ltfs process is
already dead (or terminated by the timeout path) before the handler runs,
so terminating it there has no further mount effect. -/
def mountLtfsOnly (env : MountEnv) (fs : FS) : FS × Except String String :=
  if !env.ltfsPresent then
    (fs, .error "LTFS (ltfs) not installed. Install LTFS to mount tape as LTFS.")
  else
    match env.sgDevice with
    | none =>
      (fs, .error "Cannot resolve tape device to SCSI generic device (e.g. /dev/sg0). LTFS requires the sg device.")
    | some _ =>
      let fs0 := (unmountLeftovers env.sweep fs).1
      let fs1 := fs0.mkdir env.mountPoint
      match env.poll with
      | .exitedMounted => (fs1.domount env.mountPoint, .ok env.mountPoint)
      | .polledMounted => (fs1.domount env.mountPoint, .ok env.mountPoint)
      | .exitedNoMount tail =>
        (mountDirCleanup env.mountPoint env.cleanupFuser env.cleanupUmount fs1,
         .error ("LTFS mount failed (ltfs exited early)." ++ mountFailSuffix tail))
      | .timedOut tail =>
        (mountDirCleanup env.mountPoint env.cleanupFuser env.cleanupUmount fs1,
         .error ("LTFS mount timed out." ++ mountFailSuffix tail))

/-! ## Mount+sync run (`run_ltfs_rsync`) -/

/-- Trace of the externally visible actions of one `run_ltfs_rsync` run. -/
inductive LAct
  | sweepAct
  | mkdtempAct (p : String)
  | spawnLtfs
  | spawnRsync
  | unmountCmd (p : String)
  | rmdirTry (p : String)
  | termLtfs
deriving DecidableEq, Repr

/-- Oracle environment for one `run_ltfs_rsync` run.  `cancelled` says
whether `cancel_check()` returns true at one of the read-loop iterations
before rsync finishes; the read-loop's progress parsing
(`parseRsyncProgress2`) and the 1 Hz sampler thread only drive callbacks
and never change the outcome, so they are not threaded here. -/
structure RsyncEnv where
  ltfsPresent : Bool
  rsyncPresent : Bool
  sgDevice : Option String
  paths : List String
  du : DuOutcome
  sweep : List SweepItem
  mountPoint : String
  poll : MountPoll
  cancelled : Bool
  rsyncExit : Int
  cleanupFuser : RunOutcome
  cleanupUmount : RunOutcome
  ltfsAliveAtCleanup : Bool
  termUnmounts : Bool

/-- Message of the cancellation error raised in `run_ltfs_rsync`. -/
def ltfsCancelMsg : String := "Backup to LTFS cancelled by user"

/-- The rsync phase of `run_ltfs_rsync` under a visible mount: spawn
rsync and run the read loop — cancellation raises, then a non-zero exit
raises, else success. -/
def ltfsRsyncSync (env : RsyncEnv) (fs : FS) (tr : List LAct) :
    FS × Except String Unit × List LAct :=
  let tr1 := tr ++ [LAct.spawnRsync]
  if env.cancelled then (fs, .error ltfsCancelMsg, tr1)
  else if env.rsyncExit ≠ 0 then
    (fs, .error ("rsync failed with exit code " ++ toString env.rsyncExit), tr1)
  else (fs, .ok (), tr1)

/-- The `try:` body of `run_ltfs_rsync`: sweep leftovers, create the mount
directory, spawn ltfs and poll; on a visible mount spawn rsync and run the
read loop. -/
def ltfsRsyncBody (env : RsyncEnv) (fs : FS) : FS × Except String Unit × List LAct :=
  let fs0 := (unmountLeftovers env.sweep fs).1
  let fs1 := fs0.mkdir env.mountPoint
  let tr0 := [LAct.sweepAct, LAct.mkdtempAct env.mountPoint, LAct.spawnLtfs]
  match env.poll with
  | .exitedNoMount tail =>
    (fs1, .error ("LTFS mount failed (ltfs exited early)." ++ mountFailSuffix tail), tr0)
  | .timedOut tail =>
    (fs1, .error ("LTFS mount timed out." ++ mountFailSuffix tail), tr0)
  | .exitedMounted =>
    ltfsRsyncSync env (fs1.domount env.mountPoint) tr0
  | .polledMounted =>
    ltfsRsyncSync env (fs1.domount env.mountPoint) tr0

/-- The `finally:` block of `run_ltfs_rsync`: clear the mount-point holder
(not modelled), unmount the mount directory if it exists and is still
mounted, attempt `os.rmdir`, and terminate a still-alive ltfs process
(which, being the FUSE daemon, may itself detach the mount). -/
def ltfsRsyncCleanup (env : RsyncEnv) (fs : FS) : FS × List LAct :=
  let mp := env.mountPoint
  let r1 : FS × List LAct :=
    if !mp.isEmpty && fs.isdir mp then
      ((mountDirCleanup mp env.cleanupFuser env.cleanupUmount fs),
       (if fs.ismount mp then [LAct.unmountCmd mp] else []) ++ [LAct.rmdirTry mp])
    else (fs, [])
  let r2 : FS × List LAct :=
    if env.ltfsAliveAtCleanup then
      ((if env.termUnmounts then r1.1.dounmount mp else r1.1), [LAct.termLtfs])
    else (r1.1, [])
  (r2.1, r1.2 ++ r2.2)

/-- `run_ltfs_rsync(device, paths, …)`: the tool-presence and
sg-resolution guards run before the `try:` (so they skip the cleanup);
everything from the leftover sweep on runs inside `try … finally`, and the
`finally` block always executes between the body and the return. -/
def runLtfsRsync (env : RsyncEnv) (fs : FS) : FS × Except String Unit × List LAct :=
  if !env.ltfsPresent then
    (fs, .error "LTFS (ltfs) not installed. Install LTFS to use Backup to LTFS (rsync).", [])
  else if !env.rsyncPresent then
    (fs, .error "rsync not found. Install rsync to use Backup to LTFS (rsync).", [])
  else
    match env.sgDevice with
    | none =>
      (fs, .error "Cannot resolve tape device to SCSI generic device (e.g. /dev/sg0). LTFS requires the sg device.", [])
    | some _ =>
      let body := ltfsRsyncBody env fs
      let cleanup := ltfsRsyncCleanup env body.1
      (cleanup.1, body.2.1, body.2.2 ++ cleanup.2)

/-! ## Supporting lemmas -/

/-- String append acts as list append on the underlying character data. -/
theorem strData (a b : String) : (a ++ b).data = a.data ++ b.data := rfl

/-- The misreport band test, rewritten from the rational quotient
`bytes / 1024^3 ∈ [50, 500]` to the integer bounds it is equivalent to. -/
theorem misreport_band_iff (v : ℕ) :
    ((LTO9_MISREPORT_MIN_GB : ℚ) ≤ (v : ℚ) / (1024 ^ 3 : ℚ) ∧
      (v : ℚ) / (1024 ^ 3 : ℚ) ≤ (LTO9_MISREPORT_MAX_GB : ℚ)) ↔
      (50 * 2 ^ 30 ≤ v ∧ v ≤ 500 * 2 ^ 30) := by
  have h3 : (0 : ℚ) < 1024 ^ 3 := by norm_num
  rw [le_div_iff₀ h3, div_le_iff₀ h3]
  have e1 : ((LTO9_MISREPORT_MIN_GB : ℕ) : ℚ) * 1024 ^ 3 = ((50 * 2 ^ 30 : ℕ) : ℚ) := by
    norm_num [LTO9_MISREPORT_MIN_GB]
  have e2 : ((LTO9_MISREPORT_MAX_GB : ℕ) : ℚ) * 1024 ^ 3 = ((500 * 2 ^ 30 : ℕ) : ℚ) := by
    norm_num [LTO9_MISREPORT_MAX_GB]
  rw [e1, e2]
  exact ⟨fun ⟨a, b⟩ => ⟨Nat.cast_le.mp a, Nat.cast_le.mp b⟩,
         fun ⟨a, b⟩ => ⟨Nat.cast_le.mpr a, Nat.cast_le.mpr b⟩⟩

/-- Closed form of the misreport correction over the integer band. -/
theorem applyCorrection_eq (v : ℕ) :
    applyLto9MisreportCorrection v =
      if 50 * 2 ^ 30 ≤ v ∧ v ≤ 500 * 2 ^ 30 then v * 161 else v := by
  simp only [applyLto9MisreportCorrection]
  exact if_congr (misreport_band_iff v) rfl rfl

/-- A successful pass over the candidate devices found a device whose
query succeeded with that exact value. -/
theorem tryEachDevice_mem {f : String → Option Nat} {ds : List String} {r : ℕ}
    (h : tryEachDevice f ds = some r) : ∃ d, f d = some r := by
  induction ds with
  | nil => simp [tryEachDevice] at h
  | cons d ds ih =>
    unfold tryEachDevice at h
    cases hf : f d with
    | some x =>
      rw [hf] at h
      exact ⟨d, by rw [hf]; injection h with h; rw [h]⟩
    | none =>
      rw [hf] at h
      exact ih h

/-- Claim C5: for every raw capacity value `v` in bytes, the resolver's
correction returns `v * 161` exactly when `v / 2^30` lies in `[50, 500]`
(equivalently `50·2^30 ≤ v ≤ 500·2^30`) and `v` unchanged outside that
band; and every capacity figure `query_remaining_capacity_bytes` returns
is the correction applied to a raw value obtained from one of the two
query tools on one of the candidate devices. -/
theorem C5_misreport_resolution (v : ℕ) :
    (50 * 2 ^ 30 ≤ v → v ≤ 500 * 2 ^ 30 →
      applyLto9MisreportCorrection v = v * 161)
    ∧ ((v < 50 * 2 ^ 30 ∨ 500 * 2 ^ 30 < v) → applyLto9MisreportCorrection v = v)
    ∧ (∀ (env : CapacityEnv) (dev : String) (r : ℕ),
        queryRemainingCapacityBytes env dev = some r →
        ∃ raw, r = applyLto9MisreportCorrection raw ∧
          ∃ d, env.sgLogs d = some raw ∨ env.sgReadAttr d = some raw) := by
  refine ⟨?_, ?_, ?_⟩
  · intro h1 h2
    rw [applyCorrection_eq, if_pos ⟨h1, h2⟩]
  · intro h
    rw [applyCorrection_eq, if_neg ?_]
    rintro ⟨a, b⟩
    rcases h with h | h
    · omega
    · omega
  · intro env dev r h
    simp only [queryRemainingCapacityBytes] at h
    cases hlog : tryEachDevice env.sgLogs
        (dev :: (match env.sgDevice with | some d => [d] | none => [])) with
    | some rl =>
      rw [hlog] at h
      obtain ⟨d, hd⟩ := tryEachDevice_mem hlog
      exact ⟨rl, by injection h with h; rw [h], d, Or.inl hd⟩
    | none =>
      rw [hlog] at h
      cases hattr : tryEachDevice env.sgReadAttr
          (dev :: (match env.sgDevice with | some d => [d] | none => [])) with
      | some ra =>
        rw [hattr] at h
        obtain ⟨d, hd⟩ := tryEachDevice_mem hattr
        exact ⟨ra, by injection h with h; rw [h], d, Or.inr hd⟩
      | none =>
        rw [hattr] at h
        exact absurd h (by simp)

/-- Concrete capacity environment: `sg_logs` succeeds on the resolved sg
alias only, reporting 64 GiB (inside the misreport band). -/
def envC5 : CapacityEnv where
  sgDevice := some "/dev/sg0"
  sgLogs := fun d => if d = "/dev/sg0" then some (64 * 2 ^ 30) else none
  sgReadAttr := fun _ => none

/-- Claim C5 witness: the correction at 64 GiB (in band), 1024 GiB (out of
band), and a full query run on `envC5` whose result `11063835754496`
(= 64 GiB × 161) is the correction of the raw sg_logs value. -/
theorem C5_witness :
    applyLto9MisreportCorrection (64 * 2 ^ 30) = 64 * 2 ^ 30 * 161
    ∧ applyLto9MisreportCorrection (1024 * 2 ^ 30) = 1024 * 2 ^ 30
    ∧ ∃ raw, (11063835754496 : ℕ) = applyLto9MisreportCorrection raw ∧
        ∃ d, envC5.sgLogs d = some raw ∨ envC5.sgReadAttr d = some raw := by
  refine ⟨(C5_misreport_resolution (64 * 2 ^ 30)).1 (by norm_num) (by norm_num),
          (C5_misreport_resolution (1024 * 2 ^ 30)).2.1 (Or.inr (by norm_num)),
          (C5_misreport_resolution 0).2.2 envC5 "/dev/nst0" 11063835754496 ?_⟩
  have h1 : applyLto9MisreportCorrection (64 * 2 ^ 30) = 11063835754496 := by
    rw [applyCorrection_eq]
    norm_num
  have hq : queryRemainingCapacityBytes envC5 "/dev/nst0"
      = some (applyLto9MisreportCorrection (64 * 2 ^ 30)) := rfl
  rw [hq, h1]

/-- Claim C10: the misreport correction is idempotent — a corrected value
is at least 50 GiB × 161 = 8050 GiB, strictly above the 500 GiB band edge,
so a second application leaves it unchanged. -/
theorem C10_misreport_idempotent (v : ℕ) :
    applyLto9MisreportCorrection (applyLto9MisreportCorrection v) =
      applyLto9MisreportCorrection v := by
  rw [applyCorrection_eq v]
  by_cases h : 50 * 2 ^ 30 ≤ v ∧ v ≤ 500 * 2 ^ 30
  · rw [if_pos h, applyCorrection_eq]
    have hgt : 500 * 2 ^ 30 < v * 161 := by
      have := Nat.mul_le_mul_right 161 h.1
      omega
    exact if_neg (fun hc => absurd hc.2 (Nat.not_le.mpr hgt))
  · rw [if_neg h, applyCorrection_eq, if_neg h]

/-! ## Claim C4 (`_compute_total_size` line handling) -/

/-- Spec-side value of one du output line: its leading integer when the
first token parses, 0 when the line is blank (skipped). -/
def duLineValue (l : String) : Int :=
  match pyFirstToken l with
  | none => 0
  | some tok => (pyIntParse tok).getD 0

/-- Spec-side total: the sum of the per-line leading byte counts. -/
def duTotalSum (ls : List String) : Int := (ls.map duLineValue).sum

/-- Decidable test: the line is blank, or its first token parses as an
integer. -/
def duLineParses (l : String) : Bool :=
  match pyFirstToken l with
  | none => true
  | some tok => (pyIntParse tok).isSome

/-- When every line is blank or parses, the summation loop returns the
spec-side sum. -/
theorem duSumLines_ok (ls : List String) (acc : Int)
    (h : ∀ l ∈ ls, duLineParses l = true) :
    duSumLines ls acc = some (acc + duTotalSum ls) := by
  induction ls generalizing acc with
  | nil => simp [duSumLines, duTotalSum]
  | cons l ls ih =>
    have hl := h l (List.mem_cons_self l ls)
    have hls := fun x hx => h x (List.mem_cons_of_mem l hx)
    cases ht : pyFirstToken l with
    | none =>
      simp only [duSumLines, ht]
      rw [ih acc hls]
      simp [duTotalSum, duLineValue, ht]
    | some tok =>
      simp only [duLineParses, ht] at hl
      cases hp : pyIntParse tok with
      | none => rw [hp] at hl; simp at hl
      | some k =>
        simp only [duSumLines, ht, hp]
        rw [ih (acc + k) hls]
        simp only [duTotalSum, duLineValue, ht, hp, List.map_cons, List.sum_cons,
          Option.getD_some]
        rw [Int.add_assoc]

/-- When some line has a first token that `int()` rejects, the
`ValueError` aborts the loop and the whole result is `none`. -/
theorem duSumLines_none (ls : List String)
    (h : ∃ l ∈ ls, duLineParses l = false) :
    ∀ acc, duSumLines ls acc = none := by
  induction ls with
  | nil => simp at h
  | cons l ls ih =>
    intro acc
    obtain ⟨w, hw, hwf⟩ := h
    rcases List.mem_cons.mp hw with rfl | hwtail
    · cases ht : pyFirstToken w with
      | none => simp [duLineParses, ht] at hwf
      | some tok =>
        simp only [duLineParses, ht] at hwf
        cases hp : pyIntParse tok with
        | none => simp only [duSumLines, ht, hp]
        | some k => rw [hp] at hwf; simp at hwf
    · have ihh := ih ⟨w, hwtail, hwf⟩
      cases ht : pyFirstToken l with
      | none => simp only [duSumLines, ht]; exact ihh acc
      | some tok =>
        cases hp : pyIntParse tok with
        | none => simp only [duSumLines, ht, hp]
        | some k => simp only [duSumLines, ht, hp]; exact ihh (acc + k)

/-- Claim C4 counterexample: one malformed line (`"abc\t/b"`) does not
leave the well-formed line (`"100\t/a"`) contributing — the `int()`
`ValueError` makes `_compute_total_size` return 0 for the whole call, not
the 100 the claim demands. -/
theorem C4_counterexample :
    computeTotalSize ["/a"] (DuOutcome.ran 0 "100\t/a\nabc\t/b") = 0
    ∧ computeTotalSize ["/a"] (DuOutcome.ran 0 "100\t/a\nabc\t/b") ≠ 100 := by
  constructor
  · rfl
  · decide

/-- Claim C4 as amended: with a non-empty path list and exit code 0, the
computed total is the sum of the leading byte counts when every output
line is blank or parseable; but any line whose first token fails to parse
makes the whole computation return 0 (size treated as unknown), so a
malformed line does discard the well-formed lines' contributions. -/
theorem C4_du_sum_or_zero (paths : List String) (out : String)
    (hp : paths ≠ []) :
    ((∀ l ∈ pyLines out, duLineParses l = true) →
      computeTotalSize paths (DuOutcome.ran 0 out) = duTotalSum (pyLines out))
    ∧ ((∃ l ∈ pyLines out, duLineParses l = false) →
      computeTotalSize paths (DuOutcome.ran 0 out) = 0) := by
  have hp' : paths.isEmpty = false := by
    cases paths with
    | nil => exact absurd rfl hp
    | cons a as => rfl
  constructor
  · intro h
    simp only [computeTotalSize, hp', Bool.false_eq_true, if_false]
    rw [duSumLines_ok (pyLines out) 0 h]
    simp
  · intro h
    simp only [computeTotalSize, hp', Bool.false_eq_true, if_false]
    rw [duSumLines_none (pyLines out) h 0]
    simp

/-- Claim C4 witness: a fully well-formed du output sums to 350; an output
with one malformed line computes 0. -/
theorem C4_witness :
    computeTotalSize ["/a", "/b"] (DuOutcome.ran 0 "100\t/a\n250\t/b") = 350
    ∧ computeTotalSize ["/a"] (DuOutcome.ran 0 "100\t/a\nxyz\t/b") = 0 := by
  constructor
  · exact ((C4_du_sum_or_zero ["/a", "/b"] "100\t/a\n250\t/b" (by simp)).1
      (by decide)).trans (by decide)
  · exact (C4_du_sum_or_zero ["/a"] "100\t/a\nxyz\t/b" (by simp)).2 (by decide)

/-! ## Claim C8 (checkpoint field extraction) -/

/-- Derived iteration field of a checkpoint line: the integer value of the
first token after the first `"CHECKPOINT "` marker, when the marker is
present and the token parses. -/
def checkpointIter (line : String) : Option Int :=
  match afterFirst "CHECKPOINT ".data line.data with
  | none => none
  | some rest =>
    match pyFirstToken ⟨rest⟩ with
    | none => none
    | some tok => pyIntParse tok

/-- Claim C8 counterexample: the malformed checkpoint line
`"CHECKPOINT x W: 7"` (iteration field `x` does not parse) leaves the file
count unchanged but still updates the byte counter to 7 from the `W:`
field — a malformed checkpoint line does not leave the counters
unchanged. -/
theorem C8_counterexample :
    checkpointUpdate "W:" 0 0 "CHECKPOINT x W: 7" = (0, 7)
    ∧ checkpointUpdate "W:" 0 0 "CHECKPOINT x W: 7" ≠ (0, 0) := by
  constructor
  · decide
  · decide

/-- Claim C8 as amended: on a line containing the `"CHECKPOINT "` marker,
the derived file count is `n × CHECKPOINT_EVERY` exactly when the
iteration field parses as `n` and is left unchanged when it does not; the
byte counter is taken from the labelled (`W:`/`R:`) field whenever that
regex matches — independently of whether the iteration field parsed — and
is left unchanged when it does not. -/
theorem C8_checkpoint_fields (lbl : String) (c : Int) (b : ℕ) (line : String)
    (h : (afterFirst "CHECKPOINT ".data line.data).isSome = true) :
    (∀ n, checkpointIter line = some n →
      (checkpointUpdate lbl c b line).1 = n * CHECKPOINT_EVERY)
    ∧ (checkpointIter line = none → (checkpointUpdate lbl c b line).1 = c)
    ∧ (∀ w, searchLabeled lbl.data line.data = some w →
      (checkpointUpdate lbl c b line).2 = w)
    ∧ (searchLabeled lbl.data line.data = none →
      (checkpointUpdate lbl c b line).2 = b) := by
  obtain ⟨rest, hrest⟩ := Option.isSome_iff_exists.mp h
  refine ⟨?_, ?_, ?_, ?_⟩
  · intro n hn
    simp only [checkpointIter, hrest] at hn
    simp only [checkpointUpdate, hrest]
    cases ht : pyFirstToken ⟨rest⟩ with
    | none => rw [ht] at hn; simp at hn
    | some tok =>
      rw [ht] at hn
      have hn' : pyIntParse tok = some n := hn
      simp only [ht]
      rw [hn']
  · intro hn
    simp only [checkpointIter, hrest] at hn
    simp only [checkpointUpdate, hrest]
    cases ht : pyFirstToken ⟨rest⟩ with
    | none => simp only [ht]
    | some tok =>
      rw [ht] at hn
      have hn' : pyIntParse tok = none := hn
      simp only [ht]
      rw [hn']
  · intro w hw
    simp only [checkpointUpdate, hrest, hw]
  · intro hw
    simp only [checkpointUpdate, hrest, hw]

/-- Claim C8 witness: the well-formed line `"CHECKPOINT 3 W: 77"` yields a
file count of `3 × 500` and a byte counter of 77. -/
theorem C8_witness :
    (checkpointUpdate "W:" 0 0 "CHECKPOINT 3 W: 77").1 = 3 * CHECKPOINT_EVERY
    ∧ (checkpointUpdate "W:" 0 0 "CHECKPOINT 3 W: 77").2 = 77 :=
  ⟨(C8_checkpoint_fields "W:" 0 0 "CHECKPOINT 3 W: 77" (by decide)).1 3 (by decide),
   (C8_checkpoint_fields "W:" 0 0 "CHECKPOINT 3 W: 77" (by decide)).2.2.1 77 (by decide)⟩

/-! ## Claim C9 (percentage/size parser on the documented example) -/

/-- Evaluation of `float("105.45")` in the model: the exact rational
`2109/20`. -/
theorem parseDecimal_example : parseDecimal "105.45".data = some (2109 / 20 : ℚ) := by
  show some (((105 : ℕ) : ℚ) + ((45 : ℕ) : ℚ) / (10 : ℚ) ^ 2) = some (2109 / 20 : ℚ)
  norm_num

/-- Shared evaluation of the parser on the spec's example line: the size
token `105.45M` rescales with the binary multiplier `2^20` and truncates
to 110572339 bytes; the percentage is 13. -/
theorem parseRsync_example_eval :
    parseRsyncProgress2 "105.45M 13% 602.83kB/s 0:02:50" = (some 110572339, some 13) := by
  have hfl : Int.floor ((2109 / 20 : ℚ) * ((1024 * 1024 : ℕ) : ℚ)) = 110572339 := by
    have hval : ((2109 / 20 : ℚ) * ((1024 * 1024 : ℕ) : ℚ)) = 552861696 / 5 := by
      norm_num
    rw [hval, Int.floor_eq_iff]
    norm_num
  have h0 : parseRsyncProgress2 "105.45M 13% 602.83kB/s 0:02:50"
      = (match parseDecimal "105.45".data with
         | some q => (some (Int.floor (q * ((1024 * 1024 : ℕ) : ℚ))), some (13 : ℤ))
         | none => (none, some (13 : ℤ))) := rfl
  rw [parseDecimal_example] at h0
  rw [h0]
  show (some (Int.floor ((2109 / 20 : ℚ) * ((1024 * 1024 : ℕ) : ℚ))), some (13 : ℤ))
      = (some 110572339, some 13)
  rw [hfl]

/-- Claim C9 counterexample: on `"105.45M 13% 602.83kB/s 0:02:50"` the
parser's byte figure is 110572339, not the ≈110,605,140 the claim states
(the difference, 32801 bytes, exceeds any truncation effect). -/
theorem C9_counterexample :
    (parseRsyncProgress2 "105.45M 13% 602.83kB/s 0:02:50").1 ≠ some 110605140
    ∧ parseRsyncProgress2 "105.45M 13% 602.83kB/s 0:02:50" = (some 110572339, some 13) := by
  refine ⟨?_, parseRsync_example_eval⟩
  rw [parseRsync_example_eval]
  decide

/-- Claim C9 as amended: the parser yields percentage 13 and byte figure
110572339 = ⌊105.45 × 2^20⌋ — the size token is rescaled with the
binary (1024-based) multiple for `M`. -/
theorem C9_progress_parse :
    parseRsyncProgress2 "105.45M 13% 602.83kB/s 0:02:50" = (some 110572339, some 13)
    ∧ (110572339 : ℤ) = Int.floor ((2109 / 20 : ℚ) * ((1024 * 1024 : ℕ) : ℚ)) := by
  refine ⟨parseRsync_example_eval, ?_⟩
  have hval : ((2109 / 20 : ℚ) * ((1024 * 1024 : ℕ) : ℚ)) = 552861696 / 5 := by
    norm_num
  rw [hval, eq_comm, Int.floor_eq_iff]
  norm_num

/-! ## Claim C1 (capacity precheck aborts before touching the device) -/

/-- Claim C1: whenever a positive ceiling `m` is configured and the
computed total size `t` is known (non-zero) and exceeds it, `run_backup`
fails with the capacity-exceeded error — whose message text contains both
the computed size and the configured ceiling — and its command trace
contains neither the positioning command (`mt rewind`) nor the archive
command (tar). -/
theorem C1_capacity_precheck (env : BackupEnv) (m t : Int)
    (hm : env.maxTapeBytes = some m) (hmpos : 0 < m)
    (ht : computeTotalSize env.paths env.du = t) (ht0 : t ≠ 0) (hlt : m < t) :
    (runBackup env).2 = Except.error (capacityExceededMsg t m)
    ∧ BCmd.mtRewind ∉ (runBackup env).1
    ∧ BCmd.tarSpawn ∉ (runBackup env).1
    ∧ ∃ s1 s2 s3 : List Char,
        (capacityExceededMsg t m).data =
          s1 ++ (pyCommaFmt t).data ++ s2 ++ (pyCommaFmt m).data ++ s3 := by
  have hpre : backupPrecheckFails env.maxTapeBytes
      (if computeTotalSize env.paths env.du = 0 then none
       else some (computeTotalSize env.paths env.du)) = true := by
    rw [hm, ht, if_neg ht0]
    simp [backupPrecheckFails, hmpos, hlt]
  have hrun : runBackup env
      = ((if env.paths.isEmpty then ([] : List BCmd) else [BCmd.duCmd]) ++ [],
         Except.error (capacityExceededMsg (computeTotalSize env.paths env.du)
           (env.maxTapeBytes.getD 0))) := by
    simp only [runBackup, hpre, if_true]
  rw [hrun, ht, hm]
  refine ⟨rfl, ?_, ?_, ?_⟩
  · cases hp : env.paths.isEmpty with
    | true => simp
    | false => simp
  · cases hp : env.paths.isEmpty with
    | true => simp
    | false => simp
  · refine ⟨"Backup size (".data,
      (" bytes, ~" ++ fmtGB1 t ++ " GB) exceeds tape capacity limit (").data,
      (" bytes, ~" ++ fmtGB1 ((some m : Option Int).getD 0) ++
        " GB). Increase the tape capacity setting or remove directories.").data, ?_⟩
    simp only [capacityExceededMsg, strData, List.append_assoc, Option.getD_some]

/-- Concrete environment for the C1 witness: one path whose `du` total is
2000 bytes against a configured ceiling of 1000 bytes. -/
def envC1 : BackupEnv where
  paths := ["/data"]
  du := DuOutcome.ran 0 "2000\t/data"
  maxTapeBytes := some 1000
  skipRewind := false
  rewind := Except.ok ()
  spawnErr := none
  lines := []
  exitCode := 0
  cancel := none

/-- Claim C1 witness: on `envC1` (total 2000, ceiling 1000) the run fails
with the capacity message and spawns neither `mt rewind` nor tar. -/
theorem C1_witness :
    (runBackup envC1).2 = Except.error (capacityExceededMsg 2000 1000)
    ∧ BCmd.mtRewind ∉ (runBackup envC1).1
    ∧ BCmd.tarSpawn ∉ (runBackup envC1).1 := by
  have h := C1_capacity_precheck envC1 1000 2000 rfl (by decide) (by decide)
    (by decide) (by decide)
  exact ⟨h.1, h.2.1, h.2.2.1⟩

/-! ## Claim C2 (cancellation of the listing discards parsed entries) -/

/-- Decidable test for a queue event that is a delivered output line. -/
def isLineItem : QEvent → Bool
  | QEvent.item (some _) => true
  | _ => false

/-- In the listing read loop, if the cancel predicate answers true at its
first sample, then the first `queue.Empty` tick aborts the loop with the
cancellation error no matter how many lines were delivered (and parsed)
before it and no matter what would follow. -/
theorem listLoop_cancel_at_first_tick (cf : Nat → Bool) (hcf : cf 0 = true)
    (pre : List QEvent) (hpre : ∀ e ∈ pre, isLineItem e = true) :
    ∀ (evs : List QEvent) (acc : List TapeEntry),
      listLoop (some cf) (pre ++ QEvent.empty :: evs) 0 acc
        = some (Except.error listCancelMsg) := by
  induction pre with
  | nil =>
    intro evs acc
    simp [listLoop, hcf]
  | cons e pre ih =>
    intro evs acc
    have he := hpre e (List.mem_cons_self e pre)
    have hpre' : ∀ x ∈ pre, isLineItem x = true :=
      fun x hx => hpre x (List.mem_cons_of_mem e hx)
    cases e with
    | empty => simp [isLineItem] at he
    | item o =>
      cases o with
      | none => simp [isLineItem] at he
      | some l =>
        rw [List.cons_append]
        cases hm : matchTarListLine (pyRstrip l).data with
        | none =>
          simp only [listLoop, hm]
          exact ih hpre' evs acc
        | some en =>
          simp only [listLoop, hm]
          exact ih hpre' evs (acc ++ [en])

/-- First listing line of the cancelled-run scenario. -/
def lineA : String := "-rw-r--r-- user/group 12345 2024-01-15 12:00 a/b.txt"

/-- Second listing line of the cancelled-run scenario. -/
def lineB : String := "drwxr-xr-x user/group 0 2024-01-15 12:00 a/"

/-- Listing environment in which two entries are parsed and then a poll
tick arrives with cancellation requested. -/
def envC2 : ListEnv where
  skipRewind := true
  rewind := Except.ok ()
  spawnErr := none
  events := [QEvent.item (some lineA), QEvent.item (some lineB),
             QEvent.empty, QEvent.item none]
  exitCode := 0
  cancel := some (fun _ => true)

/-- The same stream without cancellation. -/
def envC2ok : ListEnv := { envC2 with cancel := none }

/-- Claim C2 counterexample: with two entries already parsed, cancellation
makes `list_tape_contents` raise `TapeBackupError` — a value that carries
only the message string and none of the parsed entries — while the very
same stream without cancellation returns those two entries.  The entries
already produced are therefore not returned alongside the cancellation
error. -/
theorem C2_counterexample :
    listTapeContents envC2 = some (Except.error listCancelMsg)
    ∧ listTapeContents envC2ok
        = some (Except.ok [⟨"a/b.txt", 12345, false⟩, ⟨"a/", 0, true⟩]) :=
  ⟨rfl, rfl⟩

/-- Claim C2 as amended: cancellation is signalled as an error, and the
entries parsed before the cancellation tick are discarded — the caller
observes only the cancellation message, never a partial entry list. -/
theorem C2_cancel_error_only (env : ListEnv) (cf : Nat → Bool)
    (hc : env.cancel = some cf) (hcf : cf 0 = true)
    (pre evs : List QEvent) (hev : env.events = pre ++ QEvent.empty :: evs)
    (hpre : ∀ e ∈ pre, isLineItem e = true)
    (hsp : env.spawnErr = none) (hsk : env.skipRewind = true) :
    listTapeContents env = some (Except.error listCancelMsg) := by
  simp only [listTapeContents, hsk, Bool.not_true]
  rw [if_neg (by simp)]
  simp only [listAfterRewind, hsp]
  rw [hc, hev, listLoop_cancel_at_first_tick cf hcf pre hpre evs []]

/-- Claim C2 witness: the amended statement applied to the concrete
cancelled run `envC2`. -/
theorem C2_witness : listTapeContents envC2 = some (Except.error listCancelMsg) :=
  C2_cancel_error_only envC2 (fun _ => true) rfl rfl
    [QEvent.item (some lineA), QEvent.item (some lineB)] [QEvent.item none]
    rfl (by decide) rfl rfl

/-! ## Claim C3 (cancellation latency of the read loops) -/

/-- Message of the cancellation error raised in `run_restore`. -/
def restoreCancelMsg : String := "Restore cancelled by user"

/-- The `for line in proc.stdout:` loop of `run_restore`: identical in
shape to the backup loop — the cancel predicate is consulted once per
delivered line, before the line is logged (the `log` closure is
`checkpointUpdate` with label `"R:"` feeding callbacks only), and a true
answer terminates the process and raises the restore cancellation error.
There is no timeout tick in this loop either. -/
def restoreLoop (cancel : Option (Nat → Bool)) : List String → Nat → Except String Unit
  | [], _ => .ok ()
  | _ :: ls, i =>
    match cancel with
    | some cf => if cf i then .error restoreCancelMsg else restoreLoop cancel ls (i + 1)
    | none => restoreLoop cancel ls (i + 1)

/-- One blocking read observed by an iteration of the `while True:` loop
of `run_ltfs_rsync`: either data from `os.read`/`stderr.read` (possibly
an empty chunk while the process still runs, which the loop `continue`s
over), or the terminal observation `not chunk and proc.poll() is not
None` that breaks the loop. -/
inductive RsyncRead
  | chunk (s : String)
  | eofExited
deriving Repr

/-- The `while True:` read loop of `run_ltfs_rsync` (its cancellation and
termination skeleton): `cancel_check()` is consulted at the top of every
iteration — including before the first read — and a true answer
terminates the process and raises the cancellation error; otherwise one
blocking read is consumed.  The chunk processing (progress parsing via
`parseRsyncProgress2` and logging) feeds only callbacks and never changes
control flow, so it is not threaded here; the loop ends at the
eof-and-exited observation, after which the caller checks the exit code.
`none` means the scripted reads ran out while the loop would still be
blocked in a read.  The `cancelled` flag of `RsyncEnv` abstracts exactly
whether this loop raised the cancellation error. -/
def rsyncLoop (cancel : Option (Nat → Bool)) :
    List RsyncRead → Nat → Option (Except String Unit)
  | [], i =>
    if cancel.elim false (fun cf => cf i) then some (Except.error ltfsCancelMsg)
    else none
  | ev :: rest, i =>
    if cancel.elim false (fun cf => cf i) then some (Except.error ltfsCancelMsg)
    else
      match ev with
      | RsyncRead.chunk _ => rsyncLoop cancel rest (i + 1)
      | RsyncRead.eofExited => some (Except.ok ())

/-- Backup environment in which cancellation is requested from the start
but tar produces no output and exits 0. -/
def envC3 : BackupEnv where
  paths := []
  du := DuOutcome.toolMissing
  maxTapeBytes := none
  skipRewind := true
  rewind := Except.ok ()
  spawnErr := none
  lines := []
  exitCode := 0
  cancel := some (fun _ => true)

/-- Claim C3 counterexample: in `run_backup` the cancel predicate is
consulted only when the tool delivers a line — there is no poll tick.
With cancellation requested from the very start but no output line ever
arriving, the run completes successfully and the cancellation never
fires, so the cancellation latency is not bounded by any poll interval
and does depend on the tool's output. -/
theorem C3_counterexample :
    (runBackup envC3).2 = Except.ok ()
    ∧ envC3.cancel = some (fun _ => true) :=
  ⟨rfl, rfl⟩

/-- Claim C3 as amended: only the listing loop re-checks cancellation on
a bounded (0.5 s) poll tick — a requested cancellation fires at the first
tick regardless of further output.  The backup and restore loops consult
the predicate only when the tool delivers an output line: with at least
one line they cancel, but with no output they complete without ever
consulting it.  The rsync loop consults the predicate at the top of every
iteration, including before the first read, so a cancellation requested
from the start fires even when rsync produces no output at all — but none
of the three transfer loops has a poll tick, so only the listing's
cancellation latency is bounded by a poll interval. -/
theorem C3_cancellation_latency :
    (∀ (cf : Nat → Bool), cf 0 = true →
      ∀ (evs : List QEvent) (acc : List TapeEntry),
        listLoop (some cf) (QEvent.empty :: evs) 0 acc
          = some (Except.error listCancelMsg))
    ∧ (∀ (cf : Nat → Bool), cf 0 = true → ∀ (l : String) (ls : List String),
        backupLoop (some cf) (l :: ls) 0 = Except.error backupCancelMsg)
    ∧ (∀ (cf : Nat → Bool), backupLoop (some cf) [] 0 = Except.ok ())
    ∧ (∀ (cf : Nat → Bool), cf 0 = true → ∀ (l : String) (ls : List String),
        restoreLoop (some cf) (l :: ls) 0 = Except.error restoreCancelMsg)
    ∧ (∀ (cf : Nat → Bool), restoreLoop (some cf) [] 0 = Except.ok ())
    ∧ (∀ (cf : Nat → Bool), cf 0 = true → ∀ (evs : List RsyncRead),
        rsyncLoop (some cf) evs 0 = some (Except.error ltfsCancelMsg)) := by
  refine ⟨?_, ?_, ?_, ?_, ?_, ?_⟩
  · intro cf hcf evs acc
    exact listLoop_cancel_at_first_tick cf hcf [] (by simp) evs acc
  · intro cf hcf l ls
    simp [backupLoop, hcf]
  · intro cf
    rfl
  · intro cf hcf l ls
    simp [restoreLoop, hcf]
  · intro cf
    rfl
  · intro cf hcf evs
    cases evs with
    | nil => simp [rsyncLoop, hcf]
    | cons ev rest => simp [rsyncLoop, hcf]

/-- Claim C3 witness: the amended statement at concrete inputs — a tick
with cancellation cancels the listing; one delivered line cancels the
backup and the restore while empty output completes them; a cancellation
requested from the start cancels the rsync loop with no output at all. -/
theorem C3_witness :
    listLoop (some (fun _ => true)) [QEvent.empty] 0 []
      = some (Except.error listCancelMsg)
    ∧ backupLoop (some (fun _ => true)) ["x"] 0 = Except.error backupCancelMsg
    ∧ backupLoop (some (fun _ => true)) [] 0 = Except.ok ()
    ∧ restoreLoop (some (fun _ => true)) ["x"] 0 = Except.error restoreCancelMsg
    ∧ restoreLoop (some (fun _ => true)) [] 0 = Except.ok ()
    ∧ rsyncLoop (some (fun _ => true)) [] 0 = some (Except.error ltfsCancelMsg) :=
  ⟨C3_cancellation_latency.1 (fun _ => true) rfl [] [],
   C3_cancellation_latency.2.1 (fun _ => true) rfl "x" [],
   C3_cancellation_latency.2.2.1 (fun _ => true),
   C3_cancellation_latency.2.2.2.1 (fun _ => true) rfl "x" [],
   C3_cancellation_latency.2.2.2.2.1 (fun _ => true),
   C3_cancellation_latency.2.2.2.2.2 (fun _ => true) rfl []⟩

/-! ## Claims C6 and C7 (mount lifecycle safety) -/

/-- Well-formedness of the OS view: every path the mount table reports as
mounted is an existing directory.  Preservation of this invariant by an
operation is exactly the claim that the operation never deletes a
directory that is still mounted (the only way to break it would be an
`rmdir` succeeding on a mounted path). -/
def FS.wf (fs : FS) : Prop := ∀ d ∈ fs.mounts, d ∈ fs.dirs

instance (fs : FS) : Decidable fs.wf :=
  inferInstanceAs (Decidable (∀ d ∈ fs.mounts, d ∈ fs.dirs))

/-- An `ite` of well-formed states is well-formed. -/
theorem wf_ite {c : Prop} [Decidable c] {a b : FS} (ha : a.wf) (hb : b.wf) :
    (if c then a else b).wf := by
  split
  · exact ha
  · exact hb

/-- `rmdir` preserves the invariant: it refuses on a mounted path and on
an unmounted path removes a directory no mount references. -/
theorem FS.wf_rmdir {fs : FS} (h : fs.wf) (p : String) : (fs.rmdir p).wf := by
  unfold FS.rmdir
  split
  · exact h
  · next hp =>
    intro d hd
    have hdp : d ≠ p := fun hEq => hp (hEq ▸ hd)
    exact (List.mem_erase_of_ne hdp).mpr (h d hd)

/-- Detaching a mount preserves the invariant. -/
theorem FS.wf_dounmount {fs : FS} (h : fs.wf) (p : String) : (fs.dounmount p).wf :=
  fun d hd => h d (List.mem_of_mem_erase hd)

/-- Creating a directory preserves the invariant. -/
theorem FS.wf_mkdir {fs : FS} (h : fs.wf) (p : String) : (fs.mkdir p).wf :=
  fun d hd => List.mem_cons_of_mem p (h d hd)

/-- Mounting over an existing directory preserves the invariant. -/
theorem FS.wf_domount {fs : FS} (h : fs.wf) {p : String} (hp : p ∈ fs.dirs) :
    (fs.domount p).wf := by
  intro d hd
  rcases List.mem_cons.mp hd with rfl | hd
  · exact hp
  · exact h d hd

/-- One unmount subprocess call preserves the invariant. -/
theorem wf_applyRun {fs : FS} (h : fs.wf) (p : String) (o : RunOutcome) :
    (applyRun fs p o).wf := by
  cases o with
  | notFound => exact h
  | ran eff =>
    cases eff
    · simpa [applyRun] using h
    · simpa [applyRun] using FS.wf_dounmount h p

/-- The fusermount/umount fallback preserves the invariant. -/
theorem wf_runUnmountFallback {fs : FS} (h : fs.wf) (f u : RunOutcome) (mp : String) :
    (runUnmountFallback f u fs mp).wf := by
  cases f with
  | notFound => exact wf_applyRun h mp u
  | ran eff =>
    cases eff
    · simpa [runUnmountFallback] using h
    · simpa [runUnmountFallback] using FS.wf_dounmount h mp

/-- `unmount_ltfs` preserves the invariant. -/
theorem wf_unmountLtfs (env : UnmountEnv) (mp : String) {fs : FS} (h : fs.wf) :
    (unmountLtfs env mp fs).wf := by
  unfold unmountLtfs
  split
  · exact h
  · have h1 : (if fs.ismount mp then runUnmountFallback env.fuser env.umountCmd fs mp
        else fs).wf :=
      wf_ite (wf_runUnmountFallback h env.fuser env.umountCmd mp) h
    have h2 : (if env.procAlive && env.termUnmounts
        then (if fs.ismount mp then runUnmountFallback env.fuser env.umountCmd fs mp
              else fs).dounmount mp
        else (if fs.ismount mp then runUnmountFallback env.fuser env.umountCmd fs mp
              else fs)).wf :=
      wf_ite (FS.wf_dounmount h1 mp) h1
    exact wf_ite (FS.wf_rmdir h2 mp) h2

/-- One sweep iteration preserves the invariant. -/
theorem wf_sweepOne (it : SweepItem) {fs : FS} (h : fs.wf) : (sweepOne it fs).1.wf := by
  simp only [sweepOne]
  split
  · exact h
  · split
    · exact h
    · have h1 : (applyRun fs it.path it.fuser).wf := wf_applyRun h it.path it.fuser
      split
      · split
        · exact FS.wf_rmdir (wf_applyRun h1 it.path it.umountCmd) it.path
        · exact wf_applyRun h1 it.path it.umountCmd
      · split
        · exact FS.wf_rmdir h1 it.path
        · exact h1

/-- The leftover sweep preserves the invariant. -/
theorem wf_unmountLeftovers (items : List SweepItem) {fs : FS} (h : fs.wf) :
    (unmountLeftovers items fs).1.wf := by
  induction items generalizing fs with
  | nil => exact h
  | cons it its ih =>
    simp only [unmountLeftovers]
    exact ih (wf_sweepOne it h)

/-- The mount-failure cleanup preserves the invariant. -/
theorem wf_mountDirCleanup (mp : String) (f u : RunOutcome) {fs : FS} (h : fs.wf) :
    (mountDirCleanup mp f u fs).wf := by
  unfold mountDirCleanup
  split
  · have h1 : (if fs.ismount mp then runUnmountFallback f u fs mp else fs).wf :=
      wf_ite (wf_runUnmountFallback h f u mp) h
    exact FS.wf_rmdir h1 mp
  · exact h

/-- `mount_ltfs_only` preserves the invariant. -/
theorem wf_mountLtfsOnly (env : MountEnv) {fs : FS} (h : fs.wf) :
    (mountLtfsOnly env fs).1.wf := by
  unfold mountLtfsOnly
  split
  · exact h
  · split
    · exact h
    · have h0 : (unmountLeftovers env.sweep fs).1.wf := wf_unmountLeftovers env.sweep h
      have h1 : ((unmountLeftovers env.sweep fs).1.mkdir env.mountPoint).wf :=
        FS.wf_mkdir h0 env.mountPoint
      cases hp : env.poll with
      | exitedMounted =>
        exact FS.wf_domount h1 (List.mem_cons_self _ _)
      | polledMounted =>
        exact FS.wf_domount h1 (List.mem_cons_self _ _)
      | exitedNoMount tail =>
        exact wf_mountDirCleanup env.mountPoint env.cleanupFuser env.cleanupUmount h1
      | timedOut tail =>
        exact wf_mountDirCleanup env.mountPoint env.cleanupFuser env.cleanupUmount h1

/-- The rsync phase does not change the filesystem state. -/
theorem ltfsRsyncSync_fst (env : RsyncEnv) (fs : FS) (tr : List LAct) :
    (ltfsRsyncSync env fs tr).1 = fs := by
  unfold ltfsRsyncSync
  split
  · rfl
  · split
    · rfl
    · rfl

/-- The `try:` body of `run_ltfs_rsync` preserves the invariant. -/
theorem wf_ltfsRsyncBody (env : RsyncEnv) {fs : FS} (h : fs.wf) :
    (ltfsRsyncBody env fs).1.wf := by
  unfold ltfsRsyncBody
  have h0 : (unmountLeftovers env.sweep fs).1.wf := wf_unmountLeftovers env.sweep h
  have h1 : ((unmountLeftovers env.sweep fs).1.mkdir env.mountPoint).wf :=
    FS.wf_mkdir h0 env.mountPoint
  cases hp : env.poll with
  | exitedNoMount tail => exact h1
  | timedOut tail => exact h1
  | exitedMounted =>
    rw [ltfsRsyncSync_fst]
    exact FS.wf_domount h1 (List.mem_cons_self _ _)
  | polledMounted =>
    rw [ltfsRsyncSync_fst]
    exact FS.wf_domount h1 (List.mem_cons_self _ _)

/-- The `finally:` block of `run_ltfs_rsync` preserves the invariant. -/
theorem wf_ltfsRsyncCleanup (env : RsyncEnv) {fs : FS} (h : fs.wf) :
    (ltfsRsyncCleanup env fs).1.wf := by
  unfold ltfsRsyncCleanup
  have hX : ((if !env.mountPoint.isEmpty && fs.isdir env.mountPoint
      then (mountDirCleanup env.mountPoint env.cleanupFuser env.cleanupUmount fs,
            (if fs.ismount env.mountPoint then [LAct.unmountCmd env.mountPoint] else [])
              ++ [LAct.rmdirTry env.mountPoint])
      else (fs, ([] : List LAct))).1).wf := by
    split
    · exact wf_mountDirCleanup env.mountPoint env.cleanupFuser env.cleanupUmount h
    · exact h
  split
  · split
    · exact FS.wf_dounmount hX env.mountPoint
    · exact hX
  · exact hX

/-- `run_ltfs_rsync` preserves the invariant. -/
theorem wf_runLtfsRsync (env : RsyncEnv) {fs : FS} (h : fs.wf) :
    (runLtfsRsync env fs).1.wf := by
  unfold runLtfsRsync
  split
  · exact h
  · split
    · exact h
    · split
      · exact h
      · exact wf_ltfsRsyncCleanup env (wf_ltfsRsyncBody env h)

/-- The mount directory created by the body of `run_ltfs_rsync` still
exists when the `finally:` block starts. -/
theorem ltfsRsyncBody_isdir (env : RsyncEnv) (fs : FS) :
    (ltfsRsyncBody env fs).1.isdir env.mountPoint = true := by
  simp only [ltfsRsyncBody]
  cases hp : env.poll with
  | exitedNoMount tail => simp [FS.isdir, FS.mkdir]
  | timedOut tail => simp [FS.isdir, FS.mkdir]
  | exitedMounted =>
    rw [ltfsRsyncSync_fst]
    simp [FS.isdir, FS.mkdir, FS.domount]
  | polledMounted =>
    rw [ltfsRsyncSync_fst]
    simp [FS.isdir, FS.mkdir, FS.domount]

/-- The `finally:` trace always attempts `os.rmdir` on the (existing)
mount directory, and attempts an unmount command whenever the directory is
still mounted on entry to the cleanup. -/
theorem ltfsRsyncCleanup_trace (env : RsyncEnv) (fs : FS)
    (h4 : env.mountPoint.isEmpty = false) (hdir : fs.isdir env.mountPoint = true) :
    LAct.rmdirTry env.mountPoint ∈ (ltfsRsyncCleanup env fs).2
    ∧ (fs.ismount env.mountPoint = true →
        LAct.unmountCmd env.mountPoint ∈ (ltfsRsyncCleanup env fs).2) := by
  cases ha : env.ltfsAliveAtCleanup <;>
    cases hm : fs.ismount env.mountPoint <;>
      simp [ltfsRsyncCleanup, h4, hdir, ha, hm]

/-- Claim C6: whenever `run_ltfs_rsync` gets past the tool and device
guards (so a mount directory is created), the `finally:` cleanup runs
between the body and the return on every path — normal completion, mount
failure, rsync failure, and cancellation alike: the returned outcome is
the body's outcome, the trace is the body's trace followed by the cleanup
trace, that cleanup trace contains the `os.rmdir` attempt on the mount
directory, and whenever the directory is still mounted after the body it
also contains the unmount command. -/
theorem C6_cleanup_every_path (env : RsyncEnv) (fs : FS)
    (h1 : env.ltfsPresent = true) (h2 : env.rsyncPresent = true)
    (h3 : env.sgDevice.isSome = true) (h4 : env.mountPoint.isEmpty = false) :
    (runLtfsRsync env fs).2.1 = (ltfsRsyncBody env fs).2.1
    ∧ (runLtfsRsync env fs).2.2 =
        (ltfsRsyncBody env fs).2.2 ++ (ltfsRsyncCleanup env (ltfsRsyncBody env fs).1).2
    ∧ LAct.rmdirTry env.mountPoint ∈ (runLtfsRsync env fs).2.2
    ∧ ((ltfsRsyncBody env fs).1.ismount env.mountPoint = true →
        LAct.unmountCmd env.mountPoint ∈ (runLtfsRsync env fs).2.2) := by
  obtain ⟨sg, hsg⟩ := Option.isSome_iff_exists.mp h3
  have hrun : runLtfsRsync env fs =
      ((ltfsRsyncCleanup env (ltfsRsyncBody env fs).1).1,
       (ltfsRsyncBody env fs).2.1,
       (ltfsRsyncBody env fs).2.2 ++ (ltfsRsyncCleanup env (ltfsRsyncBody env fs).1).2) := by
    simp [runLtfsRsync, h1, h2, hsg]
  have htr := ltfsRsyncCleanup_trace env (ltfsRsyncBody env fs).1 h4
    (ltfsRsyncBody_isdir env fs)
  rw [hrun]
  refine ⟨rfl, rfl, ?_, ?_⟩
  · exact List.mem_append.mpr (Or.inr htr.1)
  · intro hm
    exact List.mem_append.mpr (Or.inr (htr.2 hm))

/-- Concrete successful mount+sync run for the C6 witness. -/
def envC6 : RsyncEnv where
  ltfsPresent := true
  rsyncPresent := true
  sgDevice := some "/dev/sg0"
  paths := ["/data"]
  du := DuOutcome.ran 0 "2000\t/data"
  sweep := []
  mountPoint := "/tmp/ltfs_tape_w"
  poll := MountPoll.polledMounted
  cancelled := false
  rsyncExit := 0
  cleanupFuser := RunOutcome.ran true
  cleanupUmount := RunOutcome.ran true
  ltfsAliveAtCleanup := false
  termUnmounts := false

/-- Empty filesystem state for the C6 witness. -/
def fsC6 : FS := ⟨[], []⟩

/-- Claim C6 witness: on the concrete successful run the cleanup trace
contains both the rmdir attempt and (the mount being still attached after
the body) the unmount command. -/
theorem C6_witness :
    LAct.rmdirTry envC6.mountPoint ∈ (runLtfsRsync envC6 fsC6).2.2
    ∧ LAct.unmountCmd envC6.mountPoint ∈ (runLtfsRsync envC6 fsC6).2.2 := by
  have h := C6_cleanup_every_path envC6 fsC6 rfl rfl rfl rfl
  exact ⟨h.2.2.1, h.2.2.2 (by decide)⟩

/-- Claim C7: over every mount-lifecycle operation — `unmount_ltfs`,
`unmount_leftover_ltfs_mounts`, and the cleanup paths of `mount_ltfs_only`
and `run_ltfs_rsync` — the invariant "every mounted path is an existing
directory" is preserved: since the modelled `os.rmdir` (POSIX) refuses a
mounted path and each operation's explicit guards check the mount table
before removal, no operation ever deletes a directory that the mount
table still reports as mounted. -/
theorem C7_never_delete_mounted :
    (∀ (env : UnmountEnv) (mp : String) (fs : FS), fs.wf → (unmountLtfs env mp fs).wf)
    ∧ (∀ (items : List SweepItem) (fs : FS), fs.wf → (unmountLeftovers items fs).1.wf)
    ∧ (∀ (env : MountEnv) (fs : FS), fs.wf → (mountLtfsOnly env fs).1.wf)
    ∧ (∀ (env : RsyncEnv) (fs : FS), fs.wf → (runLtfsRsync env fs).1.wf) :=
  ⟨fun env mp _ h => wf_unmountLtfs env mp h,
   fun items _ h => wf_unmountLeftovers items h,
   fun env _ h => wf_mountLtfsOnly env h,
   fun env _ h => wf_runLtfsRsync env h⟩

/-- Unmount environment for the C7 witness. -/
def envC7u : UnmountEnv := ⟨RunOutcome.ran true, RunOutcome.ran true, true, false⟩

/-- Sweep candidate for the C7 witness. -/
def itemC7 : SweepItem := ⟨"/tmp/ltfs_tape_old", RunOutcome.ran false, RunOutcome.ran false⟩

/-- Mount environment (timing out) for the C7 witness. -/
def envC7m : MountEnv where
  ltfsPresent := true
  sgDevice := some "/dev/sg0"
  sweep := [itemC7]
  mountPoint := "/tmp/ltfs_tape_new"
  poll := MountPoll.timedOut "drive busy"
  cleanupFuser := RunOutcome.ran false
  cleanupUmount := RunOutcome.ran false

/-- Mount+sync environment (cancelled mid-sync, unmount commands
ineffective) for the C7 witness. -/
def envC7r : RsyncEnv where
  ltfsPresent := true
  rsyncPresent := true
  sgDevice := some "/dev/sg0"
  paths := ["/data"]
  du := DuOutcome.ran 0 "2000\t/data"
  sweep := [itemC7]
  mountPoint := "/tmp/ltfs_tape_new"
  poll := MountPoll.exitedMounted
  cancelled := true
  rsyncExit := 0
  cleanupFuser := RunOutcome.ran false
  cleanupUmount := RunOutcome.ran false
  ltfsAliveAtCleanup := true
  termUnmounts := false

/-- Filesystem with one leftover mounted session directory for the C7
witness. -/
def fsC7 : FS := ⟨["/tmp/ltfs_tape_old"], ["/tmp/ltfs_tape_old", "/keep"]⟩

/-- Claim C7 witness: the invariant theorem applied to concrete runs of
all four operations over a state with a mounted leftover directory. -/
theorem C7_witness :
    (unmountLtfs envC7u "/tmp/ltfs_tape_old" fsC7).wf
    ∧ (unmountLeftovers [itemC7] fsC7).1.wf
    ∧ (mountLtfsOnly envC7m fsC7).1.wf
    ∧ (runLtfsRsync envC7r fsC7).1.wf :=
  ⟨C7_never_delete_mounted.1 envC7u "/tmp/ltfs_tape_old" fsC7 (by decide),
   C7_never_delete_mounted.2.1 [itemC7] fsC7 (by decide),
   C7_never_delete_mounted.2.2.1 envC7m fsC7 (by decide),
   C7_never_delete_mounted.2.2.2 envC7r fsC7 (by decide)⟩
